import Mathlib

/-!
Shallow embedding of the msgraph-python wrapper (src/msgraph_python/api.py and
src/msgraph_python/exceptions.py) and proofs about its claims.

The remote Microsoft Graph collaborator is modelled as an oracle structure
(`GraphServiceClient`) whose fields give, for each endpoint the code calls,
either the collaborator's response or the exception it raises.  The wrapper's
own control flow (scope computation, truthiness tests, try/except re-wrapping,
per-team and per-chat loops, `dict` insertion, the list-comprehension unread
filter) is translated line by line from api.py.

A point the embedding keeps faithfully: api.py raises its errors as
`raise MicrosoftAuthorizationException(...)` and
`raise MicrosoftRequestException(...)`, but the module only star-imports
exceptions.py, which defines the names `AuthorizationException` and
`RequestException`.  Neither `Microsoft...` name is bound anywhere, so at run
time Python evaluates the unbound name first and every such raise site
actually raises `NameError`, never the documented exception class.  The
embedding models a raise site as a lookup of the class name in the module
namespace (`raiseByName`).
-/

namespace MsgraphPython

/-- Python values that can sit in a message's read-state attribute. -/
inductive PyVal
  | none
  | bool (b : Bool)
  | int (n : Int)
  | str (s : String)
  deriving DecidableEq, BEq, Repr

/-- Python `==` on the values above: `None` equals only `None`, booleans
compare numerically with integers (`0 == False` and `1 == True` are true),
strings compare by content and never equal booleans or integers. -/
def pyEq : PyVal → PyVal → Bool
  | PyVal.none, PyVal.none => true
  | PyVal.bool a, PyVal.bool b => a == b
  | PyVal.bool a, PyVal.int n => (if a then (1 : Int) else 0) == n
  | PyVal.int n, PyVal.bool a => n == (if a then (1 : Int) else 0)
  | PyVal.int m, PyVal.int n => m == n
  | PyVal.str a, PyVal.str b => a == b
  | _, _ => false

/-- Exception values the embedded program can raise or receive from the
collaborator.  `AuthorizationException` and `RequestException` are the two
classes of exceptions.py; `NameError` and `AttributeError` are Python
builtins; `other` stands for an arbitrary collaborator failure. -/
inductive PyExc
  | AuthorizationException (msg : String)
  | RequestException (msg : String)
  | NameError (missing : String)
  | AttributeError (attr : String)
  | other (msg : String)
  deriving DecidableEq, Repr

/-- Python `str(e)` for the exceptions above, used by the f-strings of the
accessors (quotation marks of the builtin renderings are elided). -/
def excMessage : PyExc → String
  | PyExc.AuthorizationException m => m
  | PyExc.RequestException m => m
  | PyExc.NameError n => "name " ++ n ++ " is not defined"
  | PyExc.AttributeError a => "object has no attribute " ++ a
  | PyExc.other m => m

/-- A raise site `raise Name(msg)` of api.py: the class name is looked up in
the module namespace, which holds exactly the two classes star-imported from
exceptions.py.  An unbound name makes the raise statement itself raise
`NameError` (the intended message is never attached). -/
def raiseByName (name msg : String) : PyExc :=
  if name = "AuthorizationException" then PyExc.AuthorizationException msg
  else if name = "RequestException" then PyExc.RequestException msg
  else PyExc.NameError name

/-- The response object of `client.me.get()` (a `User` model); only the field
the code touches is kept. -/
structure UserResponse where
  display_name : Option String
  deriving DecidableEq, Repr

/-- A team, as used by the code (`team.id`). -/
structure Team where
  id : String
  deriving DecidableEq, Repr

/-- A channel, as used by the code (`channel.id`). -/
structure Channel where
  id : String
  deriving DecidableEq, Repr

/-- A chat, as used by the code (`chat.id`). -/
structure Chat where
  id : String
  deriving DecidableEq, Repr

/-- A chat message.  `isRead = Option.none` models a message object that has
no `isRead` attribute at all (touching it raises `AttributeError`);
`isRead = some v` models the attribute holding the Python value `v`. -/
structure ChatMessage where
  body : String
  isRead : Option PyVal
  deriving DecidableEq, Repr

/-- An item of a mail response; only the read flag matters to the claims. -/
structure Email where
  subject : String
  is_read : Bool
  deriving DecidableEq, Repr

/-- A calendar event; `start_utc` is its start instant (hours, UTC). -/
structure CalEvent where
  subject : String
  start_utc : Int
  deriving DecidableEq, Repr

/-- A server-side date-range restriction a calendar-view request could carry
(start and end instants, hours, UTC). -/
structure DateRange where
  range_start : Int
  range_end : Int
  deriving DecidableEq, Repr

/-- Oracle for the collaborator: one field per remote endpoint api.py calls,
giving the collaborator's response or the exception the call raises.
`calendar_view` takes the optional date-range restriction the request carries,
so the embedding records which restriction the code actually sends. -/
structure GraphServiceClient where
  me_get : Except PyExc (Option UserResponse)
  joined_teams : Except PyExc (List Team)
  channels : String → Except PyExc (List Channel)
  channel_messages : String → String → Except PyExc (List String)
  channel_messages_unread : String → String → Except PyExc (List String)
  chats : Except PyExc (List Chat)
  chat_messages : String → Except PyExc (List ChatMessage)
  me_messages : Except PyExc (List Email)
  mail_folders : Except PyExc (List Email)
  events : Except PyExc (List CalEvent)
  calendar_view : Option DateRange → Except PyExc (List CalEvent)

/-- Python truthiness of an optional string: `None` and the empty string are
falsy (`if not client_id: ...`). -/
def pyTruthyStr : Option String → Bool
  | Option.none => false
  | some s => s != ""

/-- The argument-or-environment pattern of NewGraphAPI:
`if not client_id: client_id = os.getenv("CLIENT_ID")`. -/
def getenvOr (arg envVal : Option String) : Option String :=
  if pyTruthyStr arg then arg else envVal

/-- The process environment the bootstrap reads. -/
structure Env where
  client_id_var : Option String
  tenant_id_var : Option String

/-- Scope computation of NewGraphAPI (api.py lines 34-42): start from
`User.Read`, then append one provider permission per recognized friendly
name, testing membership in the caller's scope list in this fixed order. -/
def selected_scopes (scopes : List String) : List String :=
  let s0 := ["User.Read"]
  let s1 := if "mail" ∈ scopes then s0 ++ ["Mail.Read"] else s0
  let s2 := if "calendar" ∈ scopes then s1 ++ ["Calendars.Read"] else s1
  let s3 := if "teams-chat" ∈ scopes then s2 ++ ["Chat.Read"] else s2
  if "teams-channel" ∈ scopes then s3 ++ ["ChannelMessage.Read.All"] else s3

/-- Modelled from the spec: the fixed friendly-name-to-permission mapping
("mail" to Mail.Read, "calendar" to Calendars.Read, "teams-chat" to
Chat.Read, "teams-channel" to ChannelMessage.Read.All), used to state the
claim that `selected_scopes` realizes it; unknown names map to nothing. -/
def spec_scope_mapping (s : String) : Option String :=
  if s = "mail" then some "Mail.Read"
  else if s = "calendar" then some "Calendars.Read"
  else if s = "teams-chat" then some "Chat.Read"
  else if s = "teams-channel" then some "ChannelMessage.Read.All"
  else Option.none

/-- The facade object: it owns the authenticated client handle. -/
structure GraphAPI where
  client : GraphServiceClient

/-- device_credential_connection (api.py lines 50-59): probe `client.me.get()`;
a truthy response object (any non-None response, its display name may be
empty) hands the client back, a falsy one executes
`raise MicrosoftAuthorizationException(...)` - an unbound name.  An exception
from the probe itself propagates uncaught.  The credential and client
construction is the collaborator oracle. -/
def device_credential_connection (client : GraphServiceClient) :
    Except PyExc GraphServiceClient :=
  match client.me_get with
  | Except.error e => Except.error e
  | Except.ok response =>
      if response.isSome then Except.ok client
      else Except.error (raiseByName "MicrosoftAuthorizationException"
        "Failed to authenticate user with the Microsoft Graph API")

/-- interactive_browser_connection (api.py lines 61-71): identical probe and
check over the interactive-browser credential. -/
def interactive_browser_connection (client : GraphServiceClient) :
    Except PyExc GraphServiceClient :=
  match client.me_get with
  | Except.error e => Except.error e
  | Except.ok response =>
      if response.isSome then Except.ok client
      else Except.error (raiseByName "MicrosoftAuthorizationException"
        "Failed to authenticate user with the Microsoft Graph API")

/-- NewGraphAPI (api.py lines 15-48).  Arguments default from the
environment; a falsy client_id, tenant_id or scope list raises at line 32, a
scope computation that added nothing beyond `User.Read` raises at line 44
(both raise sites name the unbound `MicrosoftAuthorizationException`), and
otherwise the chosen connection's client is wrapped in a `GraphAPI`. -/
def NewGraphAPI (env : Env) (client : GraphServiceClient)
    (client_id tenant_id : Option String) (interactive : Bool)
    (scopes : List String) : Except PyExc GraphAPI :=
  let cid := getenvOr client_id env.client_id_var
  let tid := getenvOr tenant_id env.tenant_id_var
  if !pyTruthyStr cid || !pyTruthyStr tid || scopes.isEmpty then
    Except.error (raiseByName "MicrosoftAuthorizationException"
      "Invalid authentication parameters. Must provide client_id, tenant_id, and scopes.")
  else if (selected_scopes scopes).length = 1 then
    Except.error (raiseByName "MicrosoftAuthorizationException"
      "Invalid authentication scopes. Must be mail, calendar, teams-chat, or teams-channel.")
  else if interactive then
    (interactive_browser_connection client).map GraphAPI.mk
  else
    (device_credential_connection client).map GraphAPI.mk

/-- The default value of the `scopes` parameter of NewGraphAPI (api.py
line 15). -/
def defaultScopes : List String := ["mail", "calendar", "teams-chat", "teams-channel"]

/-- A call of NewGraphAPI that omits the `scopes` argument: Python fills in
the parameter's default list. -/
def NewGraphAPI_defaulted (env : Env) (client : GraphServiceClient)
    (client_id tenant_id : Option String) (interactive : Bool) :
    Except PyExc GraphAPI :=
  NewGraphAPI env client client_id tenant_id interactive defaultScopes

/-- The try/except pattern of every accessor: a passing body returns its
value, an exception `e` from the body is caught and the handler executes
`raise MicrosoftRequestException(f"<msg>{e}")` - again an unbound name, so
the handler itself raises `NameError` and the message is lost. -/
def wrapRequest (msg : String) (body : Except PyExc α) : Except PyExc α :=
  match body with
  | Except.ok v => Except.ok v
  | Except.error e =>
      Except.error (raiseByName "MicrosoftRequestException" (msg ++ excMessage e))

/-- get_user_info (api.py lines 84-123): one probe call; `response.__dict__`
on a `None` response raises `AttributeError` inside the try block. -/
def GraphAPI.get_user_info (api : GraphAPI) : Except PyExc UserResponse :=
  wrapRequest "Failed to get user info: "
    (match api.client.me_get with
     | Except.error e => Except.error e
     | Except.ok Option.none => Except.error (PyExc.AttributeError "attr_dict")
     | Except.ok (some r) => Except.ok r)

/-- Python dict assignment `d[k] = v`: an existing key keeps its position and
gets the new value, a fresh key is appended (insertion order preserved). -/
def dictInsert (d : List (String × α)) (k : String) (v : α) : List (String × α) :=
  if d.any (fun p => p.1 == k) then
    d.map (fun p => if p.1 == k then (k, v) else p)
  else d ++ [(k, v)]

/-- The inner channel loop of get_teams_channel_messages (api.py lines
144-146): fetch each channel's messages in order and `extend` the team's
accumulator; the first failing fetch aborts the loop. -/
def collectChannels (client : GraphServiceClient) (teamId : String) :
    List Channel → Except PyExc (List String)
  | [] => Except.ok []
  | ch :: rest =>
      match client.channel_messages teamId ch.id with
      | Except.error e => Except.error e
      | Except.ok msgs =>
          match collectChannels client teamId rest with
          | Except.error e => Except.error e
          | Except.ok tail => Except.ok (msgs ++ tail)

/-- The outer team loop of get_teams_channel_messages (api.py lines 141-147):
per team, fetch its channels, collect all channel messages, and store them in
the dict under the team's id; any failure aborts the whole loop. -/
def teamsLoop (client : GraphServiceClient) :
    List Team → List (String × List String) → Except PyExc (List (String × List String))
  | [], acc => Except.ok acc
  | t :: rest, acc =>
      match client.channels t.id with
      | Except.error e => Except.error e
      | Except.ok chans =>
          match collectChannels client t.id chans with
          | Except.error e => Except.error e
          | Except.ok msgs => teamsLoop client rest (dictInsert acc t.id msgs)

/-- get_teams_channel_messages (api.py lines 128-150): fetch joined teams,
run the two nested loops, and wrap any exception. -/
def GraphAPI.get_teams_channel_messages (api : GraphAPI) :
    Except PyExc (List (String × List String)) :=
  wrapRequest "Failed to get Teams messages: "
    (match api.client.joined_teams with
     | Except.error e => Except.error e
     | Except.ok teams => teamsLoop api.client teams [])

/-- The unread variant's team loop (api.py lines 168-174): identical shape,
the per-channel fetch carries the server-side `isRead eq false` filter
(oracle field `channel_messages_unread`). -/
def teamsLoopUnread (client : GraphServiceClient) :
    List Team → List (String × List String) → Except PyExc (List (String × List String))
  | [], acc => Except.ok acc
  | t :: rest, acc =>
      match client.channels t.id with
      | Except.error e => Except.error e
      | Except.ok chans =>
          match collectChannelsUnread client t.id chans with
          | Except.error e => Except.error e
          | Except.ok msgs => teamsLoopUnread client rest (dictInsert acc t.id msgs)
where
  collectChannelsUnread (client : GraphServiceClient) (teamId : String) :
      List Channel → Except PyExc (List String)
    | [] => Except.ok []
    | ch :: rest =>
        match client.channel_messages_unread teamId ch.id with
        | Except.error e => Except.error e
        | Except.ok msgs =>
            match collectChannelsUnread client teamId rest with
            | Except.error e => Except.error e
            | Except.ok tail => Except.ok (msgs ++ tail)

/-- get_unread_teams_channel_messages (api.py lines 155-177). -/
def GraphAPI.get_unread_teams_channel_messages (api : GraphAPI) :
    Except PyExc (List (String × List String)) :=
  wrapRequest "Failed to get Teams messages: "
    (match api.client.joined_teams with
     | Except.error e => Except.error e
     | Except.ok teams => teamsLoopUnread api.client teams [])

/-- get_teams_chat_messages (api.py lines 181-195): one call, wrapped. -/
def GraphAPI.get_teams_chat_messages (api : GraphAPI) (chat_id : String) :
    Except PyExc (List ChatMessage) :=
  wrapRequest "Failed to get chat messages: " (api.client.chat_messages chat_id)

/-- get_all_teams_chats (api.py lines 199-213): one call, wrapped. -/
def GraphAPI.get_all_teams_chats (api : GraphAPI) : Except PyExc (List Chat) :=
  wrapRequest "Failed to get chats: " api.client.chats

/-- The predicate of the list comprehension
`[message for message in chat_messages if message.isRead == False]` once the
attribute is known present: Python `==` against `False`. -/
def readsFalse (m : ChatMessage) : Bool :=
  match m.isRead with
  | some v => pyEq v (PyVal.bool false)
  | Option.none => false

/-- The list comprehension itself, attribute access included: reading
`message.isRead` on a message without the attribute raises `AttributeError`,
aborting the comprehension; otherwise a message is kept when its value
compares `==` equal to `False`. -/
def filterUnread : List ChatMessage → Except PyExc (List ChatMessage)
  | [] => Except.ok []
  | m :: rest =>
      match m.isRead with
      | Option.none => Except.error (PyExc.AttributeError "isRead")
      | some v =>
          match filterUnread rest with
          | Except.error e => Except.error e
          | Except.ok tail =>
              Except.ok (if pyEq v (PyVal.bool false) then m :: tail else tail)

/-- The chat loop of get_all_unread_teams_chat_messages (api.py lines
230-233): per chat, fetch all its messages, filter client-side, store under
the chat's id; any failure aborts the loop. -/
def chatsLoop (client : GraphServiceClient) :
    List Chat → List (String × List ChatMessage) →
      Except PyExc (List (String × List ChatMessage))
  | [], acc => Except.ok acc
  | c :: rest, acc =>
      match client.chat_messages c.id with
      | Except.error e => Except.error e
      | Except.ok msgs =>
          match filterUnread msgs with
          | Except.error e => Except.error e
          | Except.ok unread => chatsLoop client rest (dictInsert acc c.id unread)

/-- get_all_unread_teams_chat_messages (api.py lines 217-236). -/
def GraphAPI.get_all_unread_teams_chat_messages (api : GraphAPI) :
    Except PyExc (List (String × List ChatMessage)) :=
  wrapRequest "Failed to get chat messages: "
    (match api.client.chats with
     | Except.error e => Except.error e
     | Except.ok chats => chatsLoop api.client chats [])

/-- get_outlook_emails (api.py lines 240-254): one call to
`client.me.messages.get()`, wrapped. -/
def GraphAPI.get_outlook_emails (api : GraphAPI) : Except PyExc (List Email) :=
  wrapRequest "Failed to get emails: " api.client.me_messages

/-- get_unread_outlook_emails (api.py lines 258-272): the body is a single
call to `client.me.mail_folders.get()` - no filter of any kind is attached -
and the collaborator's response is returned unchanged. -/
def GraphAPI.get_unread_outlook_emails (api : GraphAPI) : Except PyExc (List Email) :=
  wrapRequest "Failed to get emails: " api.client.mail_folders

/-- get_all_calendar_events (api.py lines 276-290): one call, wrapped. -/
def GraphAPI.get_all_calendar_events (api : GraphAPI) : Except PyExc (List CalEvent) :=
  wrapRequest "Failed to get calendar events: " api.client.events

/-- get_todays_calendar_events (api.py lines 294-308): the body is
`client.me.calendar_view.get()` called with no request configuration at all,
so the request carries no date-range restriction (`Option.none`) and the
response is returned unchanged. -/
def GraphAPI.get_todays_calendar_events (api : GraphAPI) : Except PyExc (List CalEvent) :=
  wrapRequest "Failed to get todays calendar events: "
    (api.client.calendar_view Option.none)

/-! Helper lemmas about the loops, the dict and the filters. -/

lemma dictInsert_fresh {α : Type} (d : List (String × α)) (k : String) (v : α)
    (h : ∀ p ∈ d, p.1 ≠ k) : dictInsert d k v = d ++ [(k, v)] := by
  have hany : d.any (fun p => p.1 == k) = false := by
    rw [List.any_eq_false]
    intro p hp
    simpa using h p hp
  simp [dictInsert, hany]

lemma collectChannels_ok (client : GraphServiceClient)
    (msgF : String → String → List String)
    (hmsg : ∀ tid cid, client.channel_messages tid cid = Except.ok (msgF tid cid))
    (tid : String) :
    ∀ chans : List Channel,
      collectChannels client tid chans
        = Except.ok ((chans.map (fun ch => msgF tid ch.id)).flatten)
  | [] => rfl
  | ch :: rest => by
      rw [collectChannels, hmsg tid ch.id,
        collectChannels_ok client msgF hmsg tid rest]
      simp

lemma teamsLoop_ok (client : GraphServiceClient)
    (chanF : String → List Channel) (msgF : String → String → List String)
    (hchan : ∀ tid, client.channels tid = Except.ok (chanF tid))
    (hmsg : ∀ tid cid, client.channel_messages tid cid = Except.ok (msgF tid cid)) :
    ∀ (teams : List Team) (acc : List (String × List String)),
      (teams.map Team.id).Nodup →
      (∀ t ∈ teams, ∀ p ∈ acc, p.1 ≠ t.id) →
      teamsLoop client teams acc
        = Except.ok (acc ++ teams.map (fun t =>
            (t.id, ((chanF t.id).map (fun ch => msgF t.id ch.id)).flatten))) := by
  intro teams
  induction teams with
  | nil => intro acc _ _; simp [teamsLoop]
  | cons t rest ih =>
      intro acc hnodup hdisj
      have hfresh : ∀ p ∈ acc, p.1 ≠ t.id := fun p hp => hdisj t (by simp) p hp
      simp only [teamsLoop, hchan t.id,
        collectChannels_ok client msgF hmsg t.id (chanF t.id)]
      rw [dictInsert_fresh acc t.id _ hfresh]
      have hnodup2 : (rest.map Team.id).Nodup := (List.nodup_cons.mp hnodup).2
      have hhead : t.id ∉ rest.map Team.id := (List.nodup_cons.mp hnodup).1
      rw [ih (acc ++ [(t.id, ((chanF t.id).map (fun ch => msgF t.id ch.id)).flatten)])
        hnodup2 ?_]
      · simp
      · intro u hu p hp
        rcases List.mem_append.mp hp with hpacc | hpnew
        · exact hdisj u (by simp [hu]) p hpacc
        · have hp1 : p = (t.id, ((chanF t.id).map (fun ch => msgF t.id ch.id)).flatten) := by
            simpa using hpnew
          subst hp1
          intro hcontra
          have hco : t.id = u.id := hcontra
          apply hhead
          rw [hco]
          exact List.mem_map_of_mem Team.id hu

lemma filterUnread_ok :
    ∀ msgs : List ChatMessage,
      (∀ m ∈ msgs, (m.isRead).isSome) →
      filterUnread msgs = Except.ok (msgs.filter readsFalse)
  | [], _ => rfl
  | m :: rest, h => by
      obtain ⟨v, hv⟩ := Option.isSome_iff_exists.mp (h m (by simp))
      rw [filterUnread, hv, filterUnread_ok rest (fun x hx => h x (by simp [hx]))]
      by_cases hb : pyEq v (PyVal.bool false) = true
      · simp [List.filter_cons, readsFalse, hv, hb]
      · simp only [Bool.not_eq_true] at hb
        simp [List.filter_cons, readsFalse, hv, hb]

lemma chatsLoop_ok (client : GraphServiceClient)
    (msgF : String → List ChatMessage)
    (hmsg : ∀ cid, client.chat_messages cid = Except.ok (msgF cid))
    (hflags : ∀ cid, ∀ m ∈ msgF cid, (m.isRead).isSome) :
    ∀ (chats : List Chat) (acc : List (String × List ChatMessage)),
      (chats.map Chat.id).Nodup →
      (∀ c ∈ chats, ∀ p ∈ acc, p.1 ≠ c.id) →
      chatsLoop client chats acc
        = Except.ok (acc ++ chats.map (fun c =>
            (c.id, (msgF c.id).filter readsFalse))) := by
  intro chats
  induction chats with
  | nil => intro acc _ _; simp [chatsLoop]
  | cons c rest ih =>
      intro acc hnodup hdisj
      have hfresh : ∀ p ∈ acc, p.1 ≠ c.id := fun p hp => hdisj c (by simp) p hp
      simp only [chatsLoop, hmsg c.id, filterUnread_ok (msgF c.id) (hflags c.id)]
      rw [dictInsert_fresh acc c.id _ hfresh]
      have hnodup2 : (rest.map Chat.id).Nodup := (List.nodup_cons.mp hnodup).2
      have hhead : c.id ∉ rest.map Chat.id := (List.nodup_cons.mp hnodup).1
      rw [ih (acc ++ [(c.id, (msgF c.id).filter readsFalse)]) hnodup2 ?_]
      · simp
      · intro u hu p hp
        rcases List.mem_append.mp hp with hpacc | hpnew
        · exact hdisj u (by simp [hu]) p hpacc
        · have hp1 : p = (c.id, (msgF c.id).filter readsFalse) := by simpa using hpnew
          subst hp1
          intro hcontra
          have hco : c.id = u.id := hcontra
          apply hhead
          rw [hco]
          exact List.mem_map_of_mem Chat.id hu

lemma spec_scope_mapping_eq_some (s p : String) :
    spec_scope_mapping s = some p ↔
      (s = "mail" ∧ p = "Mail.Read") ∨ (s = "calendar" ∧ p = "Calendars.Read") ∨
      (s = "teams-chat" ∧ p = "Chat.Read") ∨
      (s = "teams-channel" ∧ p = "ChannelMessage.Read.All") := by
  unfold spec_scope_mapping
  split_ifs with h1 h2 h3 h4 <;> simp_all <;> exact eq_comm

lemma exists_spec_scope (scopes : List String) (p : String) :
    (∃ s, s ∈ scopes ∧ spec_scope_mapping s = some p) ↔
      ("mail" ∈ scopes ∧ p = "Mail.Read") ∨ ("calendar" ∈ scopes ∧ p = "Calendars.Read") ∨
      ("teams-chat" ∈ scopes ∧ p = "Chat.Read") ∨
      ("teams-channel" ∈ scopes ∧ p = "ChannelMessage.Read.All") := by
  constructor
  · rintro ⟨s, hs, hmap⟩
    rcases (spec_scope_mapping_eq_some s p).mp hmap with
      ⟨rfl, rfl⟩ | ⟨rfl, rfl⟩ | ⟨rfl, rfl⟩ | ⟨rfl, rfl⟩ <;> tauto
  · rintro (⟨h, rfl⟩ | ⟨h, rfl⟩ | ⟨h, rfl⟩ | ⟨h, rfl⟩)
    exacts [⟨"mail", h, rfl⟩, ⟨"calendar", h, rfl⟩, ⟨"teams-chat", h, rfl⟩,
      ⟨"teams-channel", h, rfl⟩]

lemma mem_selected_scopes (scopes : List String) (p : String) :
    p ∈ selected_scopes scopes ↔
      p = "User.Read" ∨ ∃ s, s ∈ scopes ∧ spec_scope_mapping s = some p := by
  rw [exists_spec_scope]
  unfold selected_scopes
  by_cases h1 : "mail" ∈ scopes <;> by_cases h2 : "calendar" ∈ scopes <;>
    by_cases h3 : "teams-chat" ∈ scopes <;> by_cases h4 : "teams-channel" ∈ scopes <;>
    simp [h1, h2, h3, h4]

/-! Concrete collaborator oracles used to evaluate the embedded code. -/

/-- A probe response with a display name. -/
def sampleUser : UserResponse := { display_name := some "Sample User" }

/-- A fully benign collaborator: every endpoint answers with an empty
collection and the probe succeeds. -/
def okClient : GraphServiceClient where
  me_get := Except.ok (some sampleUser)
  joined_teams := Except.ok []
  channels := fun _ => Except.ok []
  channel_messages := fun _ _ => Except.ok []
  channel_messages_unread := fun _ _ => Except.ok []
  chats := Except.ok []
  chat_messages := fun _ => Except.ok []
  me_messages := Except.ok []
  mail_folders := Except.ok []
  events := Except.ok []
  calendar_view := fun _ => Except.ok []

/-- An environment with neither variable set. -/
def emptyEnv : Env := { client_id_var := Option.none, tenant_id_var := Option.none }

def team1 : Team := { id := "team-1" }
def team2 : Team := { id := "team-2" }
def chanA : Channel := { id := "chan-a" }
def chanB : Channel := { id := "chan-b" }
def chat1 : Chat := { id := "chat-1" }
def chat2 : Chat := { id := "chat-2" }

/-- Channel listing of the two-teams demo: every team has the two channels. -/
def demoChanF : String → List Channel := fun _ => [chanA, chanB]

/-- Channel messages of the two-teams demo: one message per channel, tagged
with the team and channel it came from. -/
def demoMsgF : String → String → List String :=
  fun tid cid => ["msg-" ++ tid ++ "-" ++ cid]

/-- The collaborator of the spec's worked example: two joined teams of two
channels each, every fetch succeeding. -/
def demoClient : GraphServiceClient :=
  { okClient with
    joined_teams := Except.ok [team1, team2]
    channels := fun tid => Except.ok (demoChanF tid)
    channel_messages := fun tid cid => Except.ok (demoMsgF tid cid) }

/-- A collaborator where every fetch succeeds except the second channel of
the second team, whose message fetch fails mid fan-out; its direct endpoints
for mail and chat messages fail too. -/
def fanoutFailClient : GraphServiceClient :=
  { okClient with
    joined_teams := Except.ok [team1, team2]
    channels := fun tid => Except.ok (demoChanF tid)
    channel_messages := fun tid cid =>
      if tid == "team-2" && cid == "chan-b" then
        Except.error (PyExc.other "connection reset")
      else Except.ok (demoMsgF tid cid)
    chat_messages := fun _ => Except.error (PyExc.other "connection reset")
    me_messages := Except.error (PyExc.other "connection reset") }

def msgRead1 : ChatMessage := { body := "r1", isRead := some (PyVal.bool true) }
def msgUnread1 : ChatMessage := { body := "u1", isRead := some (PyVal.bool false) }
def msgUnread2 : ChatMessage := { body := "u2", isRead := some (PyVal.bool false) }
def msgRead2 : ChatMessage := { body := "r2", isRead := some (PyVal.bool true) }

/-- Chat messages of the two-chats demo: a mix of read and unread per chat. -/
def demoChatMsgF : String → List ChatMessage :=
  fun cid => if cid = "chat-1" then [msgRead1, msgUnread1, msgUnread2]
             else [msgUnread2, msgRead2]

/-- The collaborator of the mixed read/unread chats example. -/
def chatsClient : GraphServiceClient :=
  { okClient with
    chats := Except.ok [chat1, chat2]
    chat_messages := fun cid => Except.ok (demoChatMsgF cid) }

/-- A message object with a zero read-state value, one with `None`, one with
a nonzero value, and one read-`False` message. -/
def msgZero : ChatMessage := { body := "zero", isRead := some (PyVal.int 0) }
def msgNone : ChatMessage := { body := "none", isRead := some PyVal.none }
def msgOne : ChatMessage := { body := "one", isRead := some (PyVal.int 1) }
def msgFalse : ChatMessage := { body := "false", isRead := some (PyVal.bool false) }

/-- Chat messages carrying the Python values above. -/
def pyValChatMsgF : String → List ChatMessage :=
  fun _ => [msgZero, msgNone, msgOne, msgFalse]

/-- The collaborator whose single chat holds those messages. -/
def pyValClient : GraphServiceClient :=
  { okClient with
    chats := Except.ok [chat1]
    chat_messages := fun cid => Except.ok (pyValChatMsgF cid) }

/-- A message object lacking the read-state attribute entirely. -/
def flaglessMsg : ChatMessage := { body := "no-flag", isRead := Option.none }

/-- The collaborator whose single chat holds one flag-less message. -/
def flaglessClient : GraphServiceClient :=
  { okClient with
    chats := Except.ok [chat1]
    chat_messages := fun _ => Except.ok [flaglessMsg] }

/-- A probe response object that is present (truthy) but whose display name
is null. -/
def noNameUser : UserResponse := { display_name := Option.none }

/-- A collaborator whose probe returns that response. -/
def noNameClient : GraphServiceClient :=
  { okClient with me_get := Except.ok (some noNameUser) }

/-- A collaborator whose probe returns a falsy (absent) response object. -/
def probeFalsyClient : GraphServiceClient :=
  { okClient with me_get := Except.ok Option.none }

/-- An email item the server marks as read. -/
def readEmail : Email := { subject := "already read", is_read := true }

/-- A collaborator whose mail-folders endpoint answers with that read item. -/
def mailClient : GraphServiceClient :=
  { okClient with mail_folders := Except.ok [readEmail] }

/-- An event starting 10000 hours into the future, far outside any
24-hour window. -/
def farEvent : CalEvent := { subject := "far future", start_utc := 10000 }

/-- A collaborator whose calendar-view endpoint answers an unrestricted
request with the far-future event and a date-restricted request with
nothing, so the response reveals which request the code sent. -/
def calClient : GraphServiceClient :=
  { okClient with
    calendar_view := fun range =>
      if range.isSome then Except.ok [] else Except.ok [farEvent] }

/-! The claims. -/

/-- Claim C1 (code-bug evidence): when any underlying fetch fails - here the
second channel of the second team, mid fan-out - the accessor call fails as a
unit and returns no partial mapping, but what it raises is the NameError for
the unbound name MicrosoftRequestException, not a RequestException wrapping
the original message; the same NameError surfaces from the single-call
accessors whose fetch fails. -/
theorem accessor_failure_raises_nameerror :
    (GraphAPI.mk fanoutFailClient).get_teams_channel_messages
        = Except.error (PyExc.NameError "MicrosoftRequestException")
    ∧ (∀ d, (GraphAPI.mk fanoutFailClient).get_teams_channel_messages ≠ Except.ok d)
    ∧ (∀ m, (GraphAPI.mk fanoutFailClient).get_teams_channel_messages
        ≠ Except.error (PyExc.RequestException m))
    ∧ (GraphAPI.mk fanoutFailClient).get_outlook_emails
        = Except.error (PyExc.NameError "MicrosoftRequestException")
    ∧ (GraphAPI.mk fanoutFailClient).get_teams_chat_messages "chat-1"
        = Except.error (PyExc.NameError "MicrosoftRequestException") := by
  have h : (GraphAPI.mk fanoutFailClient).get_teams_channel_messages
      = Except.error (PyExc.NameError "MicrosoftRequestException") := rfl
  refine ⟨h, ?_, ?_, rfl, rfl⟩
  · intro d hd
    rw [h] at hd
    exact Except.noConfusion hd
  · intro m hm
    rw [h] at hm
    simp at hm

/-- Claim C2: for every requested friendly scope list, the computed
permission list is the baseline User.Read together with exactly the image of
the fixed mapping over the recognized names; for the scope list with only
mail it is exactly User.Read and Mail.Read, and for the full list it is all
five permissions, each exactly once. -/
theorem selected_scopes_realize_spec_mapping :
    (∀ scopes p, p ∈ selected_scopes scopes ↔
        p = "User.Read" ∨ ∃ s, s ∈ scopes ∧ spec_scope_mapping s = some p)
    ∧ selected_scopes ["mail"] = ["User.Read", "Mail.Read"]
    ∧ selected_scopes ["mail", "calendar", "teams-chat", "teams-channel"]
        = ["User.Read", "Mail.Read", "Calendars.Read", "Chat.Read",
           "ChannelMessage.Read.All"]
    ∧ (selected_scopes ["mail", "calendar", "teams-chat", "teams-channel"]).Nodup :=
  ⟨mem_selected_scopes, by decide, by decide, by decide⟩

/-- Claim C3 (code-bug evidence): with an empty scope list, or one holding
only unrecognized names, session creation fails for either value of the
interactive flag and no session is returned - but the failure is the
NameError for the unbound name MicrosoftAuthorizationException, not an
AuthorizationException. -/
theorem invalid_scopes_raise_nameerror :
    (∀ i : Bool, NewGraphAPI emptyEnv okClient (some "cid") (some "tid") i []
        = Except.error (PyExc.NameError "MicrosoftAuthorizationException"))
    ∧ (∀ i : Bool,
        NewGraphAPI emptyEnv okClient (some "cid") (some "tid") i ["unknown-scope"]
        = Except.error (PyExc.NameError "MicrosoftAuthorizationException")) := by
  constructor <;> intro i <;> rfl

/-- Claim C4 counterexample: a probe response object that is present but has
a null display name does not fail session creation - both connection flows
hand the client straight to the facade. -/
theorem session_despite_null_display_name :
    device_credential_connection noNameClient = Except.ok noNameClient
    ∧ interactive_browser_connection noNameClient = Except.ok noNameClient
    ∧ noNameClient.me_get = Except.ok (some { display_name := Option.none }) :=
  ⟨rfl, rfl, rfl⟩

/-- Claim C4 (amended): in both flows the probe decides by the truthiness of
the response object alone - a present response hands the session over
whatever its display name, and an absent response raises the NameError for
the unbound name MicrosoftAuthorizationException. -/
theorem connection_ok_iff_response_present (client : GraphServiceClient)
    (r : Option UserResponse) (h : client.me_get = Except.ok r) :
    device_credential_connection client
        = (if r.isSome then Except.ok client
           else Except.error (PyExc.NameError "MicrosoftAuthorizationException"))
    ∧ interactive_browser_connection client
        = (if r.isSome then Except.ok client
           else Except.error (PyExc.NameError "MicrosoftAuthorizationException")) := by
  unfold device_credential_connection interactive_browser_connection
  rw [h]
  constructor <;> simp [raiseByName]

/-- Witness for the amended C4 at a collaborator whose probe response is
absent. -/
theorem connection_ok_iff_response_present_witness :
    device_credential_connection probeFalsyClient
        = Except.error (PyExc.NameError "MicrosoftAuthorizationException") := by
  have h := connection_ok_iff_response_present probeFalsyClient Option.none rfl
  simpa using h.1

/-- Claim C5: on a successful run, the returned mapping has exactly the
joined teams' ids as keys (in order) and maps each team id to the
concatenation of its channels' message lists, channels and messages in fetch
order. -/
theorem get_teams_channel_messages_success (client : GraphServiceClient)
    (teams : List Team) (chanF : String → List Channel)
    (msgF : String → String → List String)
    (hteams : client.joined_teams = Except.ok teams)
    (hnodup : (teams.map Team.id).Nodup)
    (hchan : ∀ tid, client.channels tid = Except.ok (chanF tid))
    (hmsg : ∀ tid cid, client.channel_messages tid cid = Except.ok (msgF tid cid)) :
    (GraphAPI.mk client).get_teams_channel_messages
      = Except.ok (teams.map (fun t =>
          (t.id, ((chanF t.id).map (fun ch => msgF t.id ch.id)).flatten))) := by
  simp only [GraphAPI.get_teams_channel_messages, hteams]
  rw [teamsLoop_ok client chanF msgF hchan hmsg teams [] hnodup (by simp)]
  rfl

/-- Witness for C5 at the worked example: two teams of two channels each,
every fetch succeeding. -/
theorem get_teams_channel_messages_success_witness :
    (GraphAPI.mk demoClient).get_teams_channel_messages
      = Except.ok [("team-1", ["msg-team-1-chan-a", "msg-team-1-chan-b"]),
                   ("team-2", ["msg-team-2-chan-a", "msg-team-2-chan-b"])] := by
  rw [get_teams_channel_messages_success demoClient [team1, team2] demoChanF demoMsgF
      rfl (by decide) (fun _ => rfl) (fun _ _ => rfl)]
  exact congrArg Except.ok (by decide)

/-- Claim C6: on a successful run over chats whose messages all carry a
boolean read-state flag, the returned mapping assigns to each chat id exactly
the sublist of its messages whose flag is false, in original order, the
filtering having been applied client-side after fetching each chat's full
message list. -/
theorem get_all_unread_chat_messages_filter (client : GraphServiceClient)
    (chatList : List Chat) (msgF : String → List ChatMessage)
    (hchats : client.chats = Except.ok chatList)
    (hnodup : (chatList.map Chat.id).Nodup)
    (hmsg : ∀ cid, client.chat_messages cid = Except.ok (msgF cid))
    (hbool : ∀ cid, ∀ m ∈ msgF cid, ∃ b, m.isRead = some (PyVal.bool b)) :
    (GraphAPI.mk client).get_all_unread_teams_chat_messages
      = Except.ok (chatList.map (fun c =>
          (c.id, (msgF c.id).filter
            (fun m => m.isRead == some (PyVal.bool false))))) := by
  have hflags : ∀ cid, ∀ m ∈ msgF cid, (m.isRead).isSome := by
    intro cid m hm
    obtain ⟨b, hb⟩ := hbool cid m hm
    simp [hb]
  simp only [GraphAPI.get_all_unread_teams_chat_messages, hchats]
  rw [chatsLoop_ok client msgF hmsg hflags chatList [] hnodup (by simp)]
  simp only [wrapRequest, List.nil_append]
  congr 1
  apply List.map_congr_left
  intro c _
  congr 1
  apply List.filter_congr
  intro m hm
  obtain ⟨b, hb⟩ := hbool c.id m hm
  simp only [readsFalse, hb]
  cases b <;> rfl

/-- Witness for C6 at two chats holding a mix of read and unread messages. -/
theorem get_all_unread_chat_messages_filter_witness :
    (GraphAPI.mk chatsClient).get_all_unread_teams_chat_messages
      = Except.ok [("chat-1", [msgUnread1, msgUnread2]), ("chat-2", [msgUnread2])] := by
  have hbool : ∀ cid, ∀ m ∈ demoChatMsgF cid, ∃ b, m.isRead = some (PyVal.bool b) := by
    intro cid m hm
    have hcases : m = msgRead1 ∨ m = msgUnread1 ∨ m = msgUnread2 ∨ m = msgRead2 := by
      unfold demoChatMsgF at hm
      split at hm <;> simp at hm <;> tauto
    rcases hcases with rfl | rfl | rfl | rfl <;> exact ⟨_, rfl⟩
  rw [get_all_unread_chat_messages_filter chatsClient [chat1, chat2] demoChatMsgF
      rfl (by decide) (fun _ => rfl) hbool]
  exact congrArg Except.ok (by decide)

/-- Claim C7 (code-bug evidence): get_unread_outlook_emails returns the
collaborator's mail-folders response unchanged - no unread filter is applied
anywhere, so an item the server marks read appears in the result. -/
theorem unread_emails_return_mail_folders_unfiltered :
    (GraphAPI.mk mailClient).get_unread_outlook_emails = Except.ok [readEmail]
    ∧ readEmail.is_read = true :=
  ⟨rfl, rfl⟩

/-- Claim C8 (code-bug evidence): get_todays_calendar_events sends the
calendar-view request with no date-range restriction (the oracle answers a
restricted request with nothing, yet the far-future event is returned), and
that event lies outside every window of the form now to now plus 24 hours
that starts at hour 0. -/
theorem todays_events_request_unrestricted :
    (GraphAPI.mk calClient).get_todays_calendar_events = Except.ok [farEvent]
    ∧ calClient.calendar_view (some { range_start := 0, range_end := 24 })
        = Except.ok []
    ∧ ¬ ((0 : Int) ≤ farEvent.start_utc ∧ farEvent.start_utc < 0 + 24) :=
  ⟨rfl, rfl, by decide⟩

/-- Claim C9: a call of NewGraphAPI that omits the scopes argument runs with
the full friendly default list; that list is non-empty and selects all five
provider permissions, so neither invalid-scopes branch can fire - the
defaulted call reduces to the parameter check followed directly by the
chosen connection flow. -/
theorem defaulted_scopes_never_invalid :
    (∀ env client cid tid i,
        NewGraphAPI_defaulted env client cid tid i
          = NewGraphAPI env client cid tid i defaultScopes)
    ∧ defaultScopes = ["mail", "calendar", "teams-chat", "teams-channel"]
    ∧ selected_scopes defaultScopes
        = ["User.Read", "Mail.Read", "Calendars.Read", "Chat.Read",
           "ChannelMessage.Read.All"]
    ∧ (∀ env client cid tid i,
        NewGraphAPI_defaulted env client cid tid i =
          if !pyTruthyStr (getenvOr cid env.client_id_var)
              || !pyTruthyStr (getenvOr tid env.tenant_id_var) then
            Except.error (PyExc.NameError "MicrosoftAuthorizationException")
          else if i then (interactive_browser_connection client).map GraphAPI.mk
          else (device_credential_connection client).map GraphAPI.mk) := by
  refine ⟨fun _ _ _ _ _ => rfl, rfl, by decide, ?_⟩
  intro env client cid tid i
  show NewGraphAPI env client cid tid i defaultScopes = _
  unfold NewGraphAPI
  norm_num [defaultScopes, selected_scopes, raiseByName]
  simp [raiseByName]

/-- Claim C10 counterexample: a message lacking the read-state attribute is
not discarded - the attribute access aborts the whole accessor call, which
returns no result at all. -/
theorem flagless_message_aborts_call :
    (GraphAPI.mk flaglessClient).get_all_unread_teams_chat_messages
        = Except.error (PyExc.NameError "MicrosoftRequestException")
    ∧ ∀ r, (GraphAPI.mk flaglessClient).get_all_unread_teams_chat_messages
        ≠ Except.ok r := by
  have h : (GraphAPI.mk flaglessClient).get_all_unread_teams_chat_messages
      = Except.error (PyExc.NameError "MicrosoftRequestException") := rfl
  refine ⟨h, fun r hr => ?_⟩
  rw [h] at hr
  exact Except.noConfusion hr

/-- Claim C10 (amended): over messages whose read-state attribute is present,
the client-side filter keeps exactly those whose value compares equal to
False under Python equality - so False itself and numeric zero are kept,
while None, true and nonzero values are discarded; a message lacking the
attribute instead aborts the whole call. -/
theorem unread_filter_is_python_eq_false (client : GraphServiceClient)
    (chatList : List Chat) (msgF : String → List ChatMessage)
    (hchats : client.chats = Except.ok chatList)
    (hnodup : (chatList.map Chat.id).Nodup)
    (hmsg : ∀ cid, client.chat_messages cid = Except.ok (msgF cid))
    (hflags : ∀ cid, ∀ m ∈ msgF cid, (m.isRead).isSome) :
    (GraphAPI.mk client).get_all_unread_teams_chat_messages
        = Except.ok (chatList.map (fun c => (c.id, (msgF c.id).filter readsFalse)))
    ∧ readsFalse msgZero = true
    ∧ readsFalse msgFalse = true
    ∧ readsFalse msgNone = false
    ∧ readsFalse msgOne = false := by
  refine ⟨?_, rfl, rfl, rfl, rfl⟩
  simp only [GraphAPI.get_all_unread_teams_chat_messages, hchats]
  rw [chatsLoop_ok client msgF hmsg hflags chatList [] hnodup (by simp)]
  rfl

/-- Witness for the amended C10: over one chat holding a zero-valued, a
None-valued, a one-valued and a False-valued message, exactly the zero and
False messages are kept, in order. -/
theorem unread_filter_is_python_eq_false_witness :
    (GraphAPI.mk pyValClient).get_all_unread_teams_chat_messages
        = Except.ok [("chat-1", [msgZero, msgFalse])] := by
  have hflags : ∀ cid, ∀ m ∈ pyValChatMsgF cid, (m.isRead).isSome := by
    intro cid m hm
    unfold pyValChatMsgF at hm
    simp at hm
    rcases hm with rfl | rfl | rfl | rfl <;> rfl
  rw [(unread_filter_is_python_eq_false pyValClient [chat1] pyValChatMsgF
      rfl (by decide) (fun _ => rfl) hflags).1]
  exact congrArg Except.ok (by decide)

end MsgraphPython
